import Mathlib

set_option maxHeartbeats 1000000

/-!
Verification of the Roffline media download pipeline.

This file gives a shallow embedding of the pipeline: the batch orchestrator
`downloadPostsMedia` (downloads/media/download-posts-media.ts), the media
classifier dispatch `downloadIndividualPostMedia`, the in-memory progress
tracker (media-downloads-viewer-organiser), and the server-side-events layer
(server/controllers/admin/server-side-events.ts).  External I/O - the direct
media transfer, the sqlite writes and the folder creation - is modelled by
oracles and by append-only effect logs threaded through an explicit state.
-/

/-! ## Core data model -/

abbrev PostId := String

abbrev DlError := String

/-- Modelled from the spec: the `Post` entity (db/entities/Posts/Post is not
under src/).  Only the fields the download pipeline reads are included:
identifier, outbound url and the persisted media-download-try count. -/
structure Post where
  id : PostId
  url : String
  mediaDownloadTries : Nat
deriving DecidableEq, Repr

def maxNumberDownloadTriesAllowed : Nat := 3

/-- Mirrors `tooManyDownloadTries` in download-posts-media.ts:
`post.mediaDownloadTries >= maxNumberDownloadTriesAllowed`. -/
def tooManyDownloadTries (post : Post) : Bool :=
  maxNumberDownloadTriesAllowed ≤ post.mediaDownloadTries

/-- Admin settings subset read by the pipeline (the concurrency bound). -/
structure AdminSettings where
  numberMediaDownloadsAtOnce : Nat
  downloadVideos : Bool := false
deriving DecidableEq, Repr

/-! ## Media classifier -/

/-- Modelled from the spec: `isDirectMediaLink` from posts-media-categorizers
(not under src/) holds when the url path or extension indicates a directly
downloadable file. -/
def directMediaLinkExtensions : List String :=
  [".jpg", ".jpeg", ".png", ".gif", ".gifv", ".mp4", ".webm", ".webp"]

/-- String suffix test, computed structurally over the character lists. -/
def strEndsWith (s suffix : String) : Bool :=
  List.isSuffixOf suffix.data s.data

def isDirectMediaLink (post : Post) : Bool :=
  directMediaLinkExtensions.any (fun ext => strEndsWith post.url ext)

inductive MediaStrategy
  | directDownload
  | skip (reason : String)
deriving DecidableEq, Repr

/-- Mirrors the `R.cond` clause list of `downloadIndividualPostMedia` in
download-posts-media.ts.  In the source only the
`[isDirectMediaLink, downloadDirectMediaLink]` clause is active; the image,
video, text-post, non-host-url, cross-post and fallback clauses are all
commented out, and `R.cond` returns `undefined` when no clause matches -
hence the `none` result for every other post. -/
def classifyPostMedia (post : Post) : Option MediaStrategy :=
  if isDirectMediaLink post then some MediaStrategy.directDownload else none

/-- The classifier-dispatch actually awaited by the orchestrator.  `dl` is the
oracle for `downloadDirectMediaLink` (direct-media-download.ts is external
I/O).  When no clause matches, the source awaits `undefined`, which resolves
immediately - modelled as `Except.ok ()`. -/
def downloadIndividualPostMedia (dl : Post → Except DlError Unit) (post : Post) :
    Except DlError Unit :=
  match classifyPostMedia post with
  | some MediaStrategy.directDownload => dl post
  | some (MediaStrategy.skip _) => Except.ok ()
  | none => Except.ok ()

/-! ## Progress tracker

Modelled from the spec: the adminMediaDownloadsViewerOrganiser
(media-downloads-viewer-organiser.ts is not under src/).  It owns one record
per post identifier; a new batch replaces the whole table; transitions on a
missing identifier are dropped. -/

inductive DownloadStatus
  | queued
  | tryIncremented
  | started
  | succeeded
  | failed (err : DlError)
  | cancelled (reason : String)
  | skipped (reason : String)
deriving DecidableEq, Repr

structure DownloadRecord where
  status : DownloadStatus
  downloadTries : Nat
  downloadFileSize : Int := 0
  downloadedBytes : Int := 0
  downloadSpeed : Int := 0
  downloadProgress : Int := 0
deriving DecidableEq, Repr

def Tracker : Type := PostId → Option DownloadRecord

/-- Modelled from the spec: `initializeWithNewPosts` clears all prior records
and creates a fresh queued record for each post of the new batch. -/
def initializeWithNewPosts (posts : List Post) : Tracker :=
  fun k =>
    (posts.find? (fun p => p.id = k)).map
      (fun p => { status := DownloadStatus.queued, downloadTries := p.mediaDownloadTries })

def trackerUpdate (t : Tracker) (k : PostId) (f : DownloadRecord → DownloadRecord) : Tracker :=
  fun q => if q = k then (t k).map f else t q

def setDownloadCancelled (t : Tracker) (k : PostId) (reason : String) : Tracker :=
  trackerUpdate t k (fun r => { r with status := DownloadStatus.cancelled reason })

def incrementPostMediaDownloadTry (t : Tracker) (k : PostId) : Tracker :=
  trackerUpdate t k
    (fun r => { r with status := DownloadStatus.tryIncremented, downloadTries := r.downloadTries + 1 })

def setDownloadStarted (t : Tracker) (k : PostId) : Tracker :=
  trackerUpdate t k (fun r => { r with status := DownloadStatus.started })

def setDownloadSucceeded (t : Tracker) (k : PostId) : Tracker :=
  trackerUpdate t k (fun r => { r with status := DownloadStatus.succeeded })

def setDownloadFailed (t : Tracker) (k : PostId) (err : DlError) : Tracker :=
  trackerUpdate t k (fun r => { r with status := DownloadStatus.failed err })

/-! ## Batch orchestrator -/

/-- Pipeline state: the tracker table plus append-only logs of the external
effects (`db.incrementPostMediaDownloadTry`, `db.setMediaDownloadedTrueForPost`,
`createMediaFolderForPost`, and each invocation of the executor
`downloadIndividualPostMedia`). -/
structure OrchState where
  tracker : Tracker
  dbTryIncrements : List PostId := []
  dbMediaDownloadedTrue : List PostId := []
  foldersCreated : List PostId := []
  executorCalls : List PostId := []

def initOrchState (posts : List Post) : OrchState :=
  { tracker := initializeWithNewPosts posts }

/-- Values flowing out of the per-post callback, as the untyped JavaScript
values they are at runtime: a post identifier on success, the caught `Error`
on failure, `undefined` for the retry-budget-exceeded early return, and
booleans (which appear when `RA.isNotNil` output is fed into `isNotError`). -/
inductive JSVal
  | postIdVal (id : PostId)
  | errorVal (e : DlError)
  | undefVal
  | boolVal (b : Bool)
deriving DecidableEq, Repr

def RA_isNotNil : JSVal → Bool
  | JSVal.undefVal => false
  | _ => true

def isNotError : JSVal → Bool
  | JSVal.errorVal _ => false
  | _ => true

/-- Mirrors `removeFailedDownloads` in download-posts-media.ts:
`items.filter(R.compose(isNotError, RA.isNotNil))`.  Ramda `compose` is
right-to-left, so each item is first passed through `RA.isNotNil`, and
`isNotError` is then applied to the resulting boolean. -/
def removeFailedDownloads (items : List JSVal) : List JSVal :=
  items.filter (fun item => isNotError (JSVal.boolVal (RA_isNotNil item)))

/-- The try block of the per-post callback (download-posts-media.ts lines
95 to 108): mark started, invoke the executor, and on success mark succeeded,
persist the downloaded flag and return the post id.  A thrown executor error
carries the state at the throw point, as the mutations before the throw have
already happened. -/
def runPostTryBlock (dl : Post → Except DlError Unit) (st : OrchState) (post : Post) :
    Except (DlError × OrchState) (OrchState × JSVal) :=
  let st1 : OrchState := { st with tracker := setDownloadStarted st.tracker post.id }
  let st2 : OrchState := { st1 with executorCalls := st1.executorCalls ++ [post.id] }
  match downloadIndividualPostMedia dl post with
  | Except.error e => Except.error (e, st2)
  | Except.ok _ =>
    let st3 : OrchState := { st2 with tracker := setDownloadSucceeded st2.tracker post.id }
    let st4 : OrchState := { st3 with dbMediaDownloadedTrue := st3.dbMediaDownloadedTrue ++ [post.id] }
    Except.ok (st4, JSVal.postIdVal post.id)

/-- The whole per-post callback of `downloadPostsMedia`: retry-budget check,
tracker try-increment, persisted try-increment, folder creation, then the try
block with its catch converting a thrown error into a failed record and an
`Error` return value. -/
def runPost (dl : Post → Except DlError Unit) (st : OrchState) (post : Post) :
    OrchState × JSVal :=
  if tooManyDownloadTries post then
    ({ st with
        tracker := setDownloadCancelled st.tracker post.id
          "Download Skipped: Too many download tries (3)." },
      JSVal.undefVal)
  else
    let st1 : OrchState := { st with tracker := incrementPostMediaDownloadTry st.tracker post.id }
    let st2 : OrchState := { st1 with dbTryIncrements := st1.dbTryIncrements ++ [post.id] }
    let st3 : OrchState := { st2 with foldersCreated := st2.foldersCreated ++ [post.id] }
    match runPostTryBlock dl st3 post with
    | Except.ok r => r
    | Except.error (e, st') =>
      ({ st' with tracker := setDownloadFailed st'.tracker post.id e }, JSVal.errorVal e)

/-- The bounded-concurrency sweep over the batch.  Per-post processing is
independent; distinct posts touch distinct tracker keys and only append to the
logs, so the sweep is modelled as its sequential linearisation in submission
order (prray resolves the callback results positionally). -/
def processAll (dl : Post → Except DlError Unit) : OrchState → List Post → OrchState × List JSVal
  | st, [] => (st, [])
  | st, post :: rest =>
    let r1 := runPost dl st post
    let r2 := processAll dl r1.1 rest
    (r2.1, r1.2 :: r2.2)

/-- Mirrors `downloadPostsMedia`: initialize the tracker with the new batch,
sweep all posts, then pass the collected callback results through
`removeFailedDownloads`. -/
def downloadPostsMedia (adminSettings : AdminSettings) (dl : Post → Except DlError Unit)
    (posts : List Post) : OrchState × List JSVal :=
  let _ := adminSettings.numberMediaDownloadsAtOnce
  let r := processAll dl (initOrchState posts) posts
  (r.1, removeFailedDownloads r.2)

/-- The value the per-post callback resolves with, as a function of the post
alone (the callback result does not depend on the shared state). -/
def postItem (dl : Post → Except DlError Unit) (post : Post) : JSVal :=
  if tooManyDownloadTries post then JSVal.undefVal
  else
    match downloadIndividualPostMedia dl post with
    | Except.ok _ => JSVal.postIdVal post.id
    | Except.error e => JSVal.errorVal e

def postDownloadSucceeds (dl : Post → Except DlError Unit) (post : Post) : Bool :=
  !tooManyDownloadTries post &&
    (match downloadIndividualPostMedia dl post with
     | Except.ok _ => true
     | Except.error _ => false)

/-- Net effect of one per-post callback on the tracker record of its own post. -/
def runPostRecordTransform (dl : Post → Except DlError Unit) (post : Post)
    (r : DownloadRecord) : DownloadRecord :=
  if tooManyDownloadTries post then
    { r with status := DownloadStatus.cancelled "Download Skipped: Too many download tries (3)." }
  else
    { r with
        status :=
          match downloadIndividualPostMedia dl post with
          | Except.ok _ => DownloadStatus.succeeded
          | Except.error e => DownloadStatus.failed e,
        downloadTries := r.downloadTries + 1 }

/-! ## Concrete demonstration inputs -/

def settingsTwo : AdminSettings := { numberMediaDownloadsAtOnce := 2 }

def postDirect : Post :=
  { id := "a1", url := "https://i.redd.it/abcd.jpg", mediaDownloadTries := 0 }

def postSelfText : Post :=
  { id := "b2", url := "https://www.reddit.com/r/pics/comments/xyz9", mediaDownloadTries := 1 }

def postTooManyTries : Post :=
  { id := "c3", url := "https://i.redd.it/wxyz.png", mediaDownloadTries := 3 }

def demoPosts : List Post := [postDirect, postSelfText, postTooManyTries]

def dlOk : Post → Except DlError Unit := fun _ => Except.ok ()

def dlFail : Post → Except DlError Unit := fun _ => Except.error "network failure"

/-! ## Live progress channel: payload trimming

Mirrors server/controllers/admin/server-side-events.ts. -/

/-- The value stored in the `downloadError` field before trimming: either a
real `Error` object (carrying its message) or an already-stringified error. -/
inductive ErrVal
  | errObj (msg : String)
  | str (s : String)
deriving DecidableEq, Repr

/-- `Error.prototype.toString()` output for a modelled `Error` object. -/
def errValToString : ErrVal → String
  | ErrVal.errObj msg => "Error: " ++ msg
  | ErrVal.str s => s

/-- The runtime values a trimmed download record holds, as they are seen by
`removePropsWithNoData` and by the JSON serialiser: strings, numbers,
booleans, null or undefined, and `Error` objects (which fall into the
`otherwise` branch of the `ts-pattern` match). -/
inductive FrontendValue
  | str (s : String)
  | num (n : Int)
  | boolean (b : Bool)
  | nullish
  | errorObj (msg : String)
deriving DecidableEq, Repr

/-- The predicate `R.pickBy` is called with in `removePropsWithNoData`: the
`ts-pattern` match keeps a string when it is non-empty, a number when it is
strictly greater than zero, a boolean when it is not false, drops nullish
values, and keeps anything else. -/
def propHasData : FrontendValue → Bool
  | FrontendValue.str s => !(s == "")
  | FrontendValue.num n => decide (0 < n)
  | FrontendValue.boolean b => b != false
  | FrontendValue.nullish => false
  | FrontendValue.errorObj _ => true

/-- Mirrors `removePropsWithNoData`: `R.pickBy` over the record, modelled on
the record viewed as an association list of its fields. -/
def removePropsWithNoData (props : List (String × FrontendValue)) :
    List (String × FrontendValue) :=
  props.filter (fun kv => propHasData kv.2)

/-- The `Pick<PostWithMediaDownloadInfo, ...>` projection `TrimmedDownloadProps`. -/
structure TrimmedDownload where
  id : PostId
  url : String
  downloadFailed : Bool
  downloadError : Option ErrVal
  downloadCancelled : Bool
  downloadCancellationReason : Option String
  downloadSkipped : Bool
  downloadSkippedReason : Option String
  downloadStarted : Bool
  downloadSucceeded : Bool
  downloadProgress : Int
  downloadSpeed : Int
  downloadedBytes : Int
  downloadFileSize : Int
deriving DecidableEq, Repr

/-- The full per-post record the tracker publishes (`PostWithMediaDownloadInfo`):
the post fields plus the download bookkeeping fields. -/
structure PostWithMediaDownloadInfo where
  id : PostId
  url : String
  mediaDownloadTries : Nat
  downloadFailed : Bool
  downloadError : Option ErrVal
  downloadCancelled : Bool
  downloadCancellationReason : Option String
  downloadSkipped : Bool
  downloadSkippedReason : Option String
  downloadStarted : Bool
  downloadSucceeded : Bool
  downloadProgress : Int
  downloadSpeed : Int
  downloadedBytes : Int
  downloadFileSize : Int
deriving DecidableEq, Repr

/-- The `R.pick([...])` step of `convertDownloadsMapForFrontend`. -/
def pickDownloadProps (d : PostWithMediaDownloadInfo) : TrimmedDownload :=
  { id := d.id
    url := d.url
    downloadFailed := d.downloadFailed
    downloadError := d.downloadError
    downloadCancelled := d.downloadCancelled
    downloadCancellationReason := d.downloadCancellationReason
    downloadSkipped := d.downloadSkipped
    downloadSkippedReason := d.downloadSkippedReason
    downloadStarted := d.downloadStarted
    downloadSucceeded := d.downloadSucceeded
    downloadProgress := d.downloadProgress
    downloadSpeed := d.downloadSpeed
    downloadedBytes := d.downloadedBytes
    downloadFileSize := d.downloadFileSize }

/-- `RA.isError(download)` as called in `stringifyAnyErrors`: its argument is
the whole trimmed download - a plain object produced by `R.pick`, never an
`Error` instance - so the check is false for every input. -/
def RA_isError (_ : TrimmedDownload) : Bool := false

/-- Mirrors `stringifyAnyErrors`: a copy of the record whose `downloadError`
is `download.downloadError?.toString()` when `RA.isError(download)` holds and
the unchanged `download.downloadError` otherwise. -/
def stringifyAnyErrors (download : TrimmedDownload) : TrimmedDownload :=
  { download with
      downloadError :=
        if RA_isError download then
          download.downloadError.map (fun v => ErrVal.str (errValToString v))
        else download.downloadError }

def errValToFrontend : Option ErrVal → FrontendValue
  | none => FrontendValue.nullish
  | some (ErrVal.str s) => FrontendValue.str s
  | some (ErrVal.errObj msg) => FrontendValue.errorObj msg

def optStrToFrontend : Option String → FrontendValue
  | none => FrontendValue.nullish
  | some s => FrontendValue.str s

/-- The trimmed download seen as the JavaScript object it is: an association
list of its fields and their runtime values, in the pick order. -/
def downloadToProps (d : TrimmedDownload) : List (String × FrontendValue) :=
  [("id", FrontendValue.str d.id),
   ("url", FrontendValue.str d.url),
   ("downloadFailed", FrontendValue.boolean d.downloadFailed),
   ("downloadError", errValToFrontend d.downloadError),
   ("downloadCancelled", FrontendValue.boolean d.downloadCancelled),
   ("downloadCancellationReason", optStrToFrontend d.downloadCancellationReason),
   ("downloadSkipped", FrontendValue.boolean d.downloadSkipped),
   ("downloadSkippedReason", optStrToFrontend d.downloadSkippedReason),
   ("downloadStarted", FrontendValue.boolean d.downloadStarted),
   ("downloadSucceeded", FrontendValue.boolean d.downloadSucceeded),
   ("downloadProgress", FrontendValue.num d.downloadProgress),
   ("downloadSpeed", FrontendValue.num d.downloadSpeed),
   ("downloadedBytes", FrontendValue.num d.downloadedBytes),
   ("downloadFileSize", FrontendValue.num d.downloadFileSize)]

/-- Mirrors `convertDownloadsMapForFrontend`: map values in insertion order,
pick the trimmed props, stringify errors, drop props with no data. -/
def convertDownloadsMapForFrontend (downloads : List PostWithMediaDownloadInfo) :
    List (List (String × FrontendValue)) :=
  ((downloads.map pickDownloadProps).map stringifyAnyErrors).map
    (fun d => removePropsWithNoData (downloadToProps d))

/-! ## Live progress channel: SSE frames -/

/-- Payload shapes of the SSE frames written by the handler closures. -/
inductive SSEData
  | records (rs : List (List (String × FrontendValue)))
  | postIdOnly (postId : PostId)
  | postIdWithReason (postId reason : String)
  | postIdWithErr (postId err : String)
  | progress (postId : PostId) (downloadFileSize downloadedBytes downloadSpeed downloadProgress : Int)
  | null
deriving DecidableEq, Repr

/-- One server-sent frame: the `event:` name and the `data:` payload of
`createSSEEvent`. -/
structure SSEFrame where
  event : String
  data : SSEData
deriving DecidableEq, Repr

def aDownloadStarted (postId : PostId) : SSEFrame :=
  { event := "download-started", data := SSEData.postIdOnly postId }

def aDownloadFailed (postId : PostId) (err : Option DlError) : SSEFrame :=
  { event := "download-failed", data := SSEData.postIdWithErr postId (err.getD "") }

def aDownloadSucceeded (postId : PostId) : SSEFrame :=
  { event := "download-succeeded", data := SSEData.postIdOnly postId }

def aDownloadCancelled (postId reason : String) : SSEFrame :=
  { event := "download-cancelled", data := SSEData.postIdWithReason postId reason }

def aDownloadSkipped (postId reason : String) : SSEFrame :=
  { event := "download-skipped", data := SSEData.postIdWithReason postId reason }

/-- Mirrors `progressOfADownload` in server-side-events.ts lines 179 to 193,
the closure registered for the `download-progress` emitter event: the frame it
writes carries the progress payload but names the event `download-skipped`. -/
def progressOfADownload (postId : PostId)
    (downloadFileSize downloadedBytes downloadSpeed downloadProgress : Int) : SSEFrame :=
  { event := "download-skipped"
    data := SSEData.progress postId downloadFileSize downloadedBytes downloadSpeed downloadProgress }

def downloadTryIncrementForDownload (postId : PostId) : SSEFrame :=
  { event := "download-media-try-increment", data := SSEData.postIdOnly postId }

/-! ## Live progress channel: handler trace and listener registry -/

/-- The observable actions `SSEHandler` performs, in program order. -/
inductive SSEAction
  | setHeader (name value : String)
  | writeFrame (event : String)
  | registerListener (event : String)
  | registerCloseHandler
deriving DecidableEq, Repr

def sseDefaultAction : SSEAction := SSEAction.setHeader "" ""

def isRegisterListener : SSEAction → Bool
  | SSEAction.registerListener _ => true
  | _ => false

/-- The straight-line trace of one `SSEHandler` call: four response headers,
the page-load snapshot write, the nine emitter registrations, and the
close-handler registration on the request. -/
def sseHandlerTrace : List SSEAction :=
  [SSEAction.setHeader "Content-Type" "text/event-stream",
   SSEAction.setHeader "Cache-Control" "no-cache",
   SSEAction.setHeader "x-no-compression" "true",
   SSEAction.setHeader "Connection" "keep-alive",
   SSEAction.writeFrame "page-load",
   SSEAction.registerListener "new-download-batch-started",
   SSEAction.registerListener "downloads-cleared",
   SSEAction.registerListener "download-started",
   SSEAction.registerListener "download-failed",
   SSEAction.registerListener "download-succeeded",
   SSEAction.registerListener "download-cancelled",
   SSEAction.registerListener "download-skipped",
   SSEAction.registerListener "download-progress",
   SSEAction.registerListener "download-media-try-increment",
   SSEAction.registerCloseHandler]

/-- The nine event names `SSEHandler` subscribes to, in registration order
(identical to the removal order in the close handler). -/
def sseEventNames : List String :=
  ["new-download-batch-started",
   "downloads-cleared",
   "download-started",
   "download-failed",
   "download-succeeded",
   "download-cancelled",
   "download-skipped",
   "download-progress",
   "download-media-try-increment"]

/-- One listener registration on the organiser emitter: the event name and
the connection whose closure was registered (distinct connections register
distinct closure identities). -/
structure EmitterListener where
  event : String
  connection : Nat
deriving DecidableEq, Repr

/-- The nine `emitter.on(...)` calls made for one connection, appended to the
existing listener list. -/
def addConnectionListeners (conn : Nat) (em : List EmitterListener) : List EmitterListener :=
  em ++ sseEventNames.map (fun e => { event := e, connection := conn })

/-- `emitter.removeListener(event, fn)`: removes one registration matching the
event name and closure identity, leaving the rest in place. -/
def removeListener (l : EmitterListener) : List EmitterListener → List EmitterListener
  | [] => []
  | x :: xs => if x = l then xs else x :: removeListener l xs

/-- The close handler of `SSEHandler` (lines 215 to 231): the nine
`removeListener` calls for one connection. -/
def removeConnectionListeners (conn : Nat) (em : List EmitterListener) : List EmitterListener :=
  sseEventNames.foldl (fun acc e => removeListener { event := e, connection := conn } acc) em

/-! ## Bounded-concurrency pool

Modelled from the spec: the bounded-concurrency limiter behind
`Prray.forEachAsync(..., concurrency: adminSettings.numberMediaDownloadsAtOnce)`
(the prray library is an external dependency, not under src/).  A pool state
splits the batch into posts not yet admitted, posts whose executor task is in
the started substate, and finished posts; a task may start only while fewer
than the bound are active. -/

structure PoolState where
  pending : List Post
  active : List Post
  done : List Post
deriving DecidableEq, Repr

def initPool (posts : List Post) : PoolState :=
  { pending := posts, active := [], done := [] }

/-- Admission of the next queued post, allowed only below the bound. -/
inductive PoolStart (bound : Nat) : PoolState → PoolState → Prop
  | mk (post : Post) (rest active done : List Post) :
      active.length < bound →
      PoolStart bound
        { pending := post :: rest, active := active, done := done }
        { pending := rest, active := post :: active, done := done }

/-- An active executor task reaching a terminal state and freeing its slot. -/
inductive PoolFinish : PoolState → Post → PoolState → Prop
  | mk (pending active done : List Post) (post : Post) :
      post ∈ active →
      PoolFinish
        { pending := pending, active := active, done := done }
        post
        { pending := pending, active := active.erase post, done := post :: done }

inductive PoolStep (bound : Nat) : PoolState → PoolState → Prop
  | start {s s' : PoolState} : PoolStart bound s s' → PoolStep bound s s'
  | finish {s s' : PoolState} {post : Post} : PoolFinish s post s' → PoolStep bound s s'

/-- States the pool can be in during one batch sweep. -/
inductive PoolReachable (bound : Nat) (posts : List Post) : PoolState → Prop
  | init : PoolReachable bound posts (initPool posts)
  | step {s s' : PoolState} :
      PoolReachable bound posts s → PoolStep bound s s' → PoolReachable bound posts s'

/-! ## More concrete inputs for the channel layer -/

def failedDownloadRecord : PostWithMediaDownloadInfo :=
  { id := "a1"
    url := "https://i.redd.it/abcd.jpg"
    mediaDownloadTries := 1
    downloadFailed := true
    downloadError := some (ErrVal.errObj "connect ECONNREFUSED 127.0.0.1:443")
    downloadCancelled := false
    downloadCancellationReason := none
    downloadSkipped := false
    downloadSkippedReason := none
    downloadStarted := true
    downloadSucceeded := false
    downloadProgress := 0
    downloadSpeed := 0
    downloadedBytes := 0
    downloadFileSize := 0 }

/-! ## Helper lemmas -/

/-- The filter predicate of `removeFailedDownloads` pipes each item through
`RA.isNotNil` first, so `isNotError` is always applied to a boolean and the
filter keeps every item. -/
theorem removeFailedDownloads_eq_self (items : List JSVal) :
    removeFailedDownloads items = items := by
  induction items with
  | nil => rfl
  | cons a l ih =>
    simp [removeFailedDownloads, List.filter_cons, isNotError]

theorem runPost_snd (dl : Post → Except DlError Unit) (st : OrchState) (post : Post) :
    (runPost dl st post).2 = postItem dl post := by
  unfold runPost runPostTryBlock postItem
  cases h : tooManyDownloadTries post <;>
    cases hdl : downloadIndividualPostMedia dl post <;> simp [h, hdl]

theorem runPost_tracker_self (dl : Post → Except DlError Unit) (st : OrchState) (post : Post) :
    (runPost dl st post).1.tracker post.id
      = (st.tracker post.id).map (runPostRecordTransform dl post) := by
  unfold runPost runPostTryBlock runPostRecordTransform setDownloadCancelled
    incrementPostMediaDownloadTry setDownloadStarted setDownloadSucceeded setDownloadFailed
    trackerUpdate
  cases h : tooManyDownloadTries post <;>
    cases hdl : downloadIndividualPostMedia dl post <;>
      simp [h, hdl] <;> cases st.tracker post.id <;> rfl

theorem runPost_tracker_other (dl : Post → Except DlError Unit) (st : OrchState) (post : Post)
    (k : PostId) (h : k ≠ post.id) :
    (runPost dl st post).1.tracker k = st.tracker k := by
  unfold runPost runPostTryBlock setDownloadCancelled incrementPostMediaDownloadTry
    setDownloadStarted setDownloadSucceeded setDownloadFailed trackerUpdate
  cases htm : tooManyDownloadTries post <;>
    cases hdl : downloadIndividualPostMedia dl post <;> simp [htm, hdl, h]

theorem runPost_executorCalls (dl : Post → Except DlError Unit) (st : OrchState) (post : Post) :
    (runPost dl st post).1.executorCalls
      = st.executorCalls ++ (if tooManyDownloadTries post then [] else [post.id]) := by
  unfold runPost runPostTryBlock
  cases h : tooManyDownloadTries post <;>
    cases hdl : downloadIndividualPostMedia dl post <;> simp [h, hdl]

theorem runPost_dbTryIncrements (dl : Post → Except DlError Unit) (st : OrchState) (post : Post) :
    (runPost dl st post).1.dbTryIncrements
      = st.dbTryIncrements ++ (if tooManyDownloadTries post then [] else [post.id]) := by
  unfold runPost runPostTryBlock
  cases h : tooManyDownloadTries post <;>
    cases hdl : downloadIndividualPostMedia dl post <;> simp [h, hdl]

theorem runPost_foldersCreated (dl : Post → Except DlError Unit) (st : OrchState) (post : Post) :
    (runPost dl st post).1.foldersCreated
      = st.foldersCreated ++ (if tooManyDownloadTries post then [] else [post.id]) := by
  unfold runPost runPostTryBlock
  cases h : tooManyDownloadTries post <;>
    cases hdl : downloadIndividualPostMedia dl post <;> simp [h, hdl]

theorem runPost_dbMediaDownloadedTrue (dl : Post → Except DlError Unit) (st : OrchState)
    (post : Post) :
    (runPost dl st post).1.dbMediaDownloadedTrue
      = st.dbMediaDownloadedTrue ++ (if postDownloadSucceeds dl post then [post.id] else []) := by
  unfold runPost runPostTryBlock postDownloadSucceeds
  cases h : tooManyDownloadTries post <;>
    cases hdl : downloadIndividualPostMedia dl post <;> simp [h, hdl]

theorem processAll_snd (dl : Post → Except DlError Unit) (st : OrchState) (posts : List Post) :
    (processAll dl st posts).2 = posts.map (postItem dl) := by
  induction posts generalizing st with
  | nil => rfl
  | cons p rest ih => simp [processAll, runPost_snd, ih]

theorem processAll_tracker_notMem (dl : Post → Except DlError Unit) (st : OrchState)
    (posts : List Post) (k : PostId) (h : k ∉ posts.map Post.id) :
    (processAll dl st posts).1.tracker k = st.tracker k := by
  induction posts generalizing st with
  | nil => rfl
  | cons p rest ih =>
    simp only [List.map_cons, List.mem_cons, not_or] at h
    simp only [processAll]
    rw [ih _ h.2, runPost_tracker_other dl st p k h.1]

theorem processAll_executorCalls (dl : Post → Except DlError Unit) (st : OrchState)
    (posts : List Post) :
    (processAll dl st posts).1.executorCalls
      = st.executorCalls
          ++ posts.filterMap (fun q => if tooManyDownloadTries q then none else some q.id) := by
  induction posts generalizing st with
  | nil => simp [processAll]
  | cons p rest ih =>
    simp only [processAll, List.filterMap_cons]
    rw [ih, runPost_executorCalls]
    cases h : tooManyDownloadTries p <;> simp [h]

theorem processAll_dbTryIncrements (dl : Post → Except DlError Unit) (st : OrchState)
    (posts : List Post) :
    (processAll dl st posts).1.dbTryIncrements
      = st.dbTryIncrements
          ++ posts.filterMap (fun q => if tooManyDownloadTries q then none else some q.id) := by
  induction posts generalizing st with
  | nil => simp [processAll]
  | cons p rest ih =>
    simp only [processAll, List.filterMap_cons]
    rw [ih, runPost_dbTryIncrements]
    cases h : tooManyDownloadTries p <;> simp [h]

theorem processAll_dbMediaDownloadedTrue (dl : Post → Except DlError Unit) (st : OrchState)
    (posts : List Post) :
    (processAll dl st posts).1.dbMediaDownloadedTrue
      = st.dbMediaDownloadedTrue
          ++ posts.filterMap (fun q => if postDownloadSucceeds dl q then some q.id else none) := by
  induction posts generalizing st with
  | nil => simp [processAll]
  | cons p rest ih =>
    simp only [processAll, List.filterMap_cons]
    rw [ih, runPost_dbMediaDownloadedTrue]
    cases h : postDownloadSucceeds dl p <;> simp [h]

theorem processAll_append (dl : Post → Except DlError Unit) (st : OrchState)
    (l1 l2 : List Post) :
    processAll dl st (l1 ++ l2)
      = ((processAll dl (processAll dl st l1).1 l2).1,
         (processAll dl st l1).2 ++ (processAll dl (processAll dl st l1).1 l2).2) := by
  induction l1 generalizing st with
  | nil => simp [processAll]
  | cons p rest ih => simp [processAll, ih]

theorem downloadPostsMedia_items (settings : AdminSettings) (dl : Post → Except DlError Unit)
    (posts : List Post) :
    (downloadPostsMedia settings dl posts).2 = posts.map (postItem dl) := by
  simp [downloadPostsMedia, removeFailedDownloads_eq_self, processAll_snd]

theorem postItem_postIdVal (dl : Post → Except DlError Unit) (q : Post) (s : PostId)
    (h : postItem dl q = JSVal.postIdVal s) :
    q.id = s ∧ tooManyDownloadTries q = false := by
  unfold postItem at h
  cases htm : tooManyDownloadTries q <;> rw [htm] at h
  · cases hdl : downloadIndividualPostMedia dl q <;> rw [hdl] at h <;> simp_all
  · simp_all

theorem eq_of_mem_of_id_eq {posts : List Post} (hnd : (posts.map Post.id).Nodup)
    {p q : Post} (hp : p ∈ posts) (hq : q ∈ posts) (h : q.id = p.id) : q = p := by
  induction posts with
  | nil => cases hp
  | cons a rest ih =>
    simp only [List.map_cons, List.nodup_cons] at hnd
    rcases List.mem_cons.mp hp with rfl | hp' <;> rcases List.mem_cons.mp hq with rfl | hq'
    · rfl
    · exact absurd (h ▸ List.mem_map_of_mem Post.id hq') hnd.1
    · exact absurd (h ▸ List.mem_map_of_mem Post.id hp') (by simpa [h] using hnd.1)
    · exact ih hnd.2 hp' hq'

theorem initializeWithNewPosts_of_mem {posts : List Post} {p : Post} (hmem : p ∈ posts)
    (hnd : (posts.map Post.id).Nodup) :
    initializeWithNewPosts posts p.id
      = some { status := DownloadStatus.queued, downloadTries := p.mediaDownloadTries } := by
  have hfind : posts.find? (fun q => q.id = p.id) = some p := by
    obtain ⟨l1, l2, rfl⟩ := List.append_of_mem hmem
    rcases List.nodup_append.mp (by simpa using hnd) with ⟨_, _, hdisj⟩
    have h1 : l1.find? (fun q => decide (q.id = p.id)) = none := by
      rw [List.find?_eq_none]
      intro q hq
      simp only [decide_eq_true_eq]
      intro hqe
      exact hdisj (hqe ▸ List.mem_map_of_mem Post.id hq) (List.mem_cons_self _ _)
    rw [List.find?_append, h1, Option.none_or, List.find?_cons_of_pos _ (by simp)]
  simp [initializeWithNewPosts, hfind]

theorem downloadPostsMedia_tracker_of_mem (settings : AdminSettings)
    (dl : Post → Except DlError Unit) (posts : List Post) (p : Post)
    (hmem : p ∈ posts) (hnd : (posts.map Post.id).Nodup) :
    (downloadPostsMedia settings dl posts).1.tracker p.id
      = some (runPostRecordTransform dl p
          { status := DownloadStatus.queued, downloadTries := p.mediaDownloadTries }) := by
  have hinit := initializeWithNewPosts_of_mem hmem hnd
  obtain ⟨l1, l2, hsplit⟩ := List.append_of_mem hmem
  rcases List.nodup_append.mp (by rw [hsplit] at hnd; simpa using hnd) with ⟨_, h2, hdisj⟩
  have hid2 : p.id ∉ l2.map Post.id := (List.nodup_cons.mp h2).1
  have hid1 : p.id ∉ l1.map Post.id := fun hm => hdisj hm (List.mem_cons_self _ _)
  show (processAll dl (initOrchState posts) posts).1.tracker p.id = _
  rw [hsplit, processAll_append]
  simp only [processAll]
  rw [processAll_tracker_notMem _ _ _ _ hid2, runPost_tracker_self,
    processAll_tracker_notMem _ _ _ _ hid1]
  rw [hsplit] at hinit
  rw [show (initOrchState (l1 ++ p :: l2)).tracker = initializeWithNewPosts (l1 ++ p :: l2)
      from rfl, hinit]
  rfl

theorem mem_filterMap_not_tooMany {posts : List Post} {k : PostId} :
    k ∈ posts.filterMap (fun q => if tooManyDownloadTries q then none else some q.id)
      ↔ ∃ q, q ∈ posts ∧ tooManyDownloadTries q = false ∧ q.id = k := by
  simp only [List.mem_filterMap]
  constructor
  · rintro ⟨q, hq, hsome⟩
    cases h : tooManyDownloadTries q <;> simp [h] at hsome
    exact ⟨q, hq, h, hsome⟩
  · rintro ⟨q, hq, hfalse, hid⟩
    exact ⟨q, hq, by simp [hfalse, hid]⟩

theorem mem_filterMap_succeeds {dl : Post → Except DlError Unit} {posts : List Post}
    {k : PostId} :
    k ∈ posts.filterMap (fun q => if postDownloadSucceeds dl q then some q.id else none)
      ↔ ∃ q, q ∈ posts ∧ postDownloadSucceeds dl q = true ∧ q.id = k := by
  simp only [List.mem_filterMap]
  constructor
  · rintro ⟨q, hq, hsome⟩
    cases h : postDownloadSucceeds dl q <;> simp [h] at hsome
    exact ⟨q, hq, h, hsome⟩
  · rintro ⟨q, hq, htrue, hid⟩
    exact ⟨q, hq, by simp [htrue, hid]⟩

/-! ## Claim theorems -/

/-- C1: the claim says the list returned by `downloadPostsMedia` is an
order-preserving subset of the input post identifiers containing exactly the
posts that succeeded, with skipped, cancelled and failed posts omitted.  The
code violates this: the filter predicate of `removeFailedDownloads` is
`R.compose(isNotError, RA.isNotNil)`, which applies `isNotError` to the
boolean produced by `RA.isNotNil` and is therefore constantly true, so the
returned list keeps the `undefined` of every cancelled post and the `Error`
of every failed post. -/
theorem downloadPostsMedia_returns_non_identifiers :
    (∀ items : List JSVal, removeFailedDownloads items = items)
  ∧ (downloadPostsMedia settingsTwo dlOk [postTooManyTries]).2 = [JSVal.undefVal]
  ∧ (downloadPostsMedia settingsTwo dlFail [postDirect]).2
      = [JSVal.errorVal "network failure"] := by
  refine ⟨removeFailedDownloads_eq_self, ?_, ?_⟩ <;> decide

/-- C2 counterexample: a text post whose url is not a direct media link
resolves to no strategy at all, not to the fallback skip strategy with reason
"No media match for download." claimed by the spec (that clause is commented
out in the source). -/
theorem classifier_fallback_counterexample :
    classifyPostMedia postSelfText = none
  ∧ classifyPostMedia postSelfText
      ≠ some (MediaStrategy.skip "No media match for download.") := by
  constructor <;> decide

/-- C2 amended: only the direct-media-link rule of
`downloadIndividualPostMedia` is active; a post matching no rule resolves to
no strategy (`R.cond` yields undefined), which the orchestrator awaits as an
immediately successful download - the post is marked succeeded and its
identifier appears in the result - rather than resolving to a skip strategy
with reason "No media match for download.". -/
theorem classifier_direct_only (settings : AdminSettings) (dl : Post → Except DlError Unit)
    (posts : List Post) (p : Post) (hmem : p ∈ posts) (hnd : (posts.map Post.id).Nodup)
    (hnl : isDirectMediaLink p = false) (hnt : tooManyDownloadTries p = false) :
    classifyPostMedia p = none
  ∧ downloadIndividualPostMedia dl p = Except.ok ()
  ∧ JSVal.postIdVal p.id ∈ (downloadPostsMedia settings dl posts).2
  ∧ ((downloadPostsMedia settings dl posts).1.tracker p.id).map DownloadRecord.status
      = some DownloadStatus.succeeded := by
  have hclass : classifyPostMedia p = none := by simp [classifyPostMedia, hnl]
  have hok : downloadIndividualPostMedia dl p = Except.ok () := by
    simp [downloadIndividualPostMedia, hclass]
  refine ⟨hclass, hok, ?_, ?_⟩
  · rw [downloadPostsMedia_items]
    have hitem : postItem dl p = JSVal.postIdVal p.id := by simp [postItem, hnt, hok]
    exact hitem ▸ List.mem_map_of_mem (postItem dl) hmem
  · rw [downloadPostsMedia_tracker_of_mem settings dl posts p hmem hnd]
    simp [runPostRecordTransform, hnt, hok]

theorem classifier_direct_only_witness :
    (postSelfText ∈ demoPosts)
  ∧ (demoPosts.map Post.id).Nodup
  ∧ isDirectMediaLink postSelfText = false
  ∧ tooManyDownloadTries postSelfText = false
  ∧ JSVal.postIdVal postSelfText.id ∈ (downloadPostsMedia settingsTwo dlOk demoPosts).2 :=
  ⟨by decide, by decide, by decide, by decide,
   (classifier_direct_only settingsTwo dlOk demoPosts postSelfText
      (by decide) (by decide) (by decide) (by decide)).2.2.1⟩

/-- C3: for every post whose persisted `mediaDownloadTries` is at least 3,
`downloadPostsMedia` records the post as cancelled with exactly the reason
"Download Skipped: Too many download tries (3).", never invokes the executor
for it, persists nothing further for it, and contributes no identifier for it
to the result. -/
theorem retry_budget_exceeded_cancelled (settings : AdminSettings)
    (dl : Post → Except DlError Unit) (posts : List Post) (p : Post)
    (hmem : p ∈ posts) (hnd : (posts.map Post.id).Nodup)
    (h3 : tooManyDownloadTries p = true) :
    (downloadPostsMedia settings dl posts).1.tracker p.id
        = some { status := DownloadStatus.cancelled
                    "Download Skipped: Too many download tries (3).",
                 downloadTries := p.mediaDownloadTries }
  ∧ p.id ∉ (downloadPostsMedia settings dl posts).1.executorCalls
  ∧ p.id ∉ (downloadPostsMedia settings dl posts).1.dbTryIncrements
  ∧ p.id ∉ (downloadPostsMedia settings dl posts).1.dbMediaDownloadedTrue
  ∧ JSVal.postIdVal p.id ∉ (downloadPostsMedia settings dl posts).2 := by
  refine ⟨?_, ?_, ?_, ?_, ?_⟩
  · rw [downloadPostsMedia_tracker_of_mem settings dl posts p hmem hnd]
    simp [runPostRecordTransform, h3]
  · show p.id ∉ (processAll dl (initOrchState posts) posts).1.executorCalls
    rw [processAll_executorCalls]
    rw [show (initOrchState posts).executorCalls = [] from rfl, List.nil_append]
    intro hm
    rcases mem_filterMap_not_tooMany.mp hm with ⟨q, hq, hfalse, hid⟩
    have hqp : q = p := eq_of_mem_of_id_eq hnd hmem hq hid
    rw [hqp, h3] at hfalse
    cases hfalse
  · show p.id ∉ (processAll dl (initOrchState posts) posts).1.dbTryIncrements
    rw [processAll_dbTryIncrements]
    rw [show (initOrchState posts).dbTryIncrements = [] from rfl, List.nil_append]
    intro hm
    rcases mem_filterMap_not_tooMany.mp hm with ⟨q, hq, hfalse, hid⟩
    have hqp : q = p := eq_of_mem_of_id_eq hnd hmem hq hid
    rw [hqp, h3] at hfalse
    cases hfalse
  · show p.id ∉ (processAll dl (initOrchState posts) posts).1.dbMediaDownloadedTrue
    rw [processAll_dbMediaDownloadedTrue]
    rw [show (initOrchState posts).dbMediaDownloadedTrue = [] from rfl, List.nil_append]
    intro hm
    rcases mem_filterMap_succeeds.mp hm with ⟨q, hq, htrue, hid⟩
    have hqp : q = p := eq_of_mem_of_id_eq hnd hmem hq hid
    rw [hqp] at htrue
    simp [postDownloadSucceeds, h3] at htrue
  · rw [downloadPostsMedia_items]
    intro hm
    rcases List.mem_map.mp hm with ⟨q, hq, hitem⟩
    rcases postItem_postIdVal dl q p.id hitem with ⟨hid, hfalse⟩
    have hqp : q = p := eq_of_mem_of_id_eq hnd hmem hq hid
    rw [hqp, h3] at hfalse
    cases hfalse

theorem retry_budget_exceeded_cancelled_witness :
    (postTooManyTries ∈ demoPosts)
  ∧ (demoPosts.map Post.id).Nodup
  ∧ tooManyDownloadTries postTooManyTries = true
  ∧ JSVal.postIdVal postTooManyTries.id ∉ (downloadPostsMedia settingsTwo dlOk demoPosts).2 :=
  ⟨by decide, by decide, by decide,
   (retry_budget_exceeded_cancelled settingsTwo dlOk demoPosts postTooManyTries
      (by decide) (by decide) (by decide)).2.2.2.2⟩

/-- C4: no executor error escapes `downloadPostsMedia`: the sweep produces one
result per post (the batch runs to completion), a failing executor makes the
try block raise, and the catch converts the exception into an `Error` return
value and a failed tracker record carrying the error - the per-post callback,
and hence the batch promise, still resolves. -/
theorem executor_error_caught (dl : Post → Except DlError Unit) (posts : List Post)
    (st : OrchState) (p : Post) (e : DlError)
    (h1 : tooManyDownloadTries p = false)
    (h2 : downloadIndividualPostMedia dl p = Except.error e) :
    ((processAll dl (initOrchState posts) posts).2).length = posts.length
  ∧ (runPost dl st p).2 = JSVal.errorVal e
  ∧ (∃ st', runPostTryBlock dl st p = Except.error (e, st'))
  ∧ ((runPost dl st p).1.tracker p.id).map DownloadRecord.status
      = (st.tracker p.id).map (fun _ => DownloadStatus.failed e) := by
  refine ⟨by rw [processAll_snd]; simp, ?_, ?_, ?_⟩
  · rw [runPost_snd]
    simp [postItem, h1, h2]
  · exact ⟨_, by unfold runPostTryBlock; rw [h2]⟩
  · rw [runPost_tracker_self]
    cases st.tracker p.id <;> simp [runPostRecordTransform, h1, h2]

theorem executor_error_caught_witness :
    tooManyDownloadTries postDirect = false
  ∧ downloadIndividualPostMedia dlFail postDirect = Except.error "network failure"
  ∧ (runPost dlFail (initOrchState [postDirect]) postDirect).2
      = JSVal.errorVal "network failure" :=
  ⟨by decide, by rfl,
   (executor_error_caught dlFail [postDirect] (initOrchState [postDirect]) postDirect
      "network failure" (by decide) (by rfl)).2.1⟩

/-- C5: the claim says every tracker progress notification reaches the
subscriber as a frame whose event name is `download-progress` with the
progress payload.  The handler registered for the `download-progress` emitter
event does write the progress payload, but names the frame event
`download-skipped`. -/
theorem progressOfADownload_event_name_bug :
    (progressOfADownload "abc" 100 50 10 50).data = SSEData.progress "abc" 100 50 10 50
  ∧ (progressOfADownload "abc" 100 50 10 50).event = "download-skipped"
  ∧ (progressOfADownload "abc" 100 50 10 50).event ≠ "download-progress" :=
  ⟨rfl, rfl, by decide⟩

/-- C6: the claim says an attached error value is converted to a descriptive
string before forwarding.  `stringifyAnyErrors` tests `RA.isError` on the
whole record - a plain object, never an Error - so the check is always false
and an attached `Error` object is forwarded unchanged through
`convertDownloadsMapForFrontend`. -/
theorem stringifyAnyErrors_forwards_error_object :
    (stringifyAnyErrors (pickDownloadProps failedDownloadRecord)).downloadError
      = some (ErrVal.errObj "connect ECONNREFUSED 127.0.0.1:443")
  ∧ ("downloadError", FrontendValue.errorObj "connect ECONNREFUSED 127.0.0.1:443")
      ∈ (convertDownloadsMapForFrontend [failedDownloadRecord]).getD 0 [] :=
  ⟨rfl, by decide⟩

/-- C10: `removePropsWithNoData` keeps a numeric field exactly when its value
is strictly greater than zero - negative numbers are omitted just like zero -
and it also drops empty strings, false booleans and nullish values. -/
theorem removePropsWithNoData_numeric_strictly_positive
    (props : List (String × FrontendValue)) (k : String) (n : Int) :
    ((k, FrontendValue.num n) ∈ removePropsWithNoData props
        ↔ ((k, FrontendValue.num n) ∈ props ∧ 0 < n))
  ∧ propHasData (FrontendValue.num n) = decide (0 < n)
  ∧ propHasData (FrontendValue.str "") = false
  ∧ propHasData (FrontendValue.boolean false) = false
  ∧ propHasData FrontendValue.nullish = false := by
  refine ⟨?_, rfl, rfl, rfl, rfl⟩
  simp [removePropsWithNoData, List.mem_filter, propHasData]

/-- C7: in the trace of one `SSEHandler` call, the page-load snapshot write
happens strictly before every emitter-listener registration, so the full
current snapshot is written to a new subscriber before any live update event
can be delivered to it. -/
theorem pageLoad_written_before_listener_registration (i : Nat)
    (h : isRegisterListener (sseHandlerTrace.getD i sseDefaultAction) = true) :
    ∃ j, j < i ∧ sseHandlerTrace.getD j sseDefaultAction = SSEAction.writeFrame "page-load" := by
  rcases Nat.lt_or_ge i 15 with hlt | hge
  · interval_cases i <;> revert h <;> decide
  · exfalso
    have hlen : sseHandlerTrace.length ≤ i := by
      rw [show sseHandlerTrace.length = 15 from rfl]
      omega
    rw [List.getD_eq_default _ _ hlen] at h
    exact absurd h (by decide)

theorem pageLoad_written_before_listener_registration_witness :
    ∃ j, j < 5 ∧ sseHandlerTrace.getD j sseDefaultAction = SSEAction.writeFrame "page-load" :=
  pageLoad_written_before_listener_registration 5 (by decide)

theorem removeListener_append_of_notMem (l : EmitterListener) (em xs : List EmitterListener)
    (h : l ∉ em) : removeListener l (em ++ xs) = em ++ removeListener l xs := by
  induction em with
  | nil => rfl
  | cons a em ih =>
    have ha : ¬(a = l) := fun hh => h (hh ▸ List.mem_cons_self a em)
    simp only [List.cons_append, removeListener, if_neg ha, List.append_eq]
    rw [ih (fun hm => h (List.mem_cons_of_mem a hm))]

theorem foldl_removeListener_cancel (ls : List EmitterListener) (em : List EmitterListener)
    (h : ∀ l ∈ ls, l ∉ em) :
    ls.foldl (fun acc l => removeListener l acc) (em ++ ls) = em := by
  induction ls generalizing em with
  | nil => simp
  | cons l ls ih =>
    have hl : l ∉ em := h l (List.mem_cons_self l ls)
    have hstep : removeListener l (em ++ l :: ls) = em ++ ls := by
      rw [removeListener_append_of_notMem l em (l :: ls) hl]
      simp [removeListener]
    simp only [List.foldl_cons, hstep]
    exact ih em (fun x hx => h x (List.mem_cons_of_mem l hx))

theorem foldl_removeConnection_cancel (names : List String) (conn : Nat)
    (em : List EmitterListener)
    (h : ∀ e : String, EmitterListener.mk e conn ∉ em) :
    names.foldl (fun acc e => removeListener { event := e, connection := conn } acc)
      (em ++ names.map (fun e => EmitterListener.mk e conn)) = em := by
  induction names generalizing em with
  | nil => simp
  | cons e names ih =>
    have hl : EmitterListener.mk e conn ∉ em := h e
    have hstep :
        removeListener { event := e, connection := conn }
            (em ++ EmitterListener.mk e conn :: names.map (fun x => EmitterListener.mk x conn))
          = em ++ names.map (fun x => EmitterListener.mk x conn) := by
      rw [removeListener_append_of_notMem _ em _ hl]
      simp [removeListener]
    simp only [List.map_cons, List.foldl_cons, hstep]
    exact ih em h

/-- C8: when a subscriber connection closes, the close handler removes all
nine event-listener registrations made for that connection from the emitter,
and registrations belonging to other subscribers are left exactly as they
were. -/
theorem close_removes_all_connection_listeners (conn : Nat) (em : List EmitterListener)
    (h : ∀ e : String, EmitterListener.mk e conn ∉ em) :
    removeConnectionListeners conn (addConnectionListeners conn em) = em := by
  unfold removeConnectionListeners addConnectionListeners
  exact foldl_removeConnection_cancel sseEventNames conn em h

theorem close_removes_all_connection_listeners_witness :
    (∀ e : String,
        EmitterListener.mk e 7
          ∉ [EmitterListener.mk "download-started" 3, EmitterListener.mk "downloads-cleared" 4])
  ∧ removeConnectionListeners 7
      (addConnectionListeners 7
        [EmitterListener.mk "download-started" 3, EmitterListener.mk "downloads-cleared" 4])
      = [EmitterListener.mk "download-started" 3, EmitterListener.mk "downloads-cleared" 4] :=
  ⟨fun e => by simp, close_removes_all_connection_listeners 7 _ (fun e => by simp)⟩

theorem pool_active_le (bound : Nat) (posts : List Post) (s : PoolState)
    (h : PoolReachable bound posts s) : s.active.length ≤ bound := by
  induction h with
  | init => simp [initPool]
  | step hr hs ih =>
    cases hs with
    | start hstart =>
      cases hstart with
      | mk post rest active done hlt =>
        simp only [] at ih ⊢
        simpa using hlt
    | finish hfin =>
      cases hfin with
      | mk pending active done post hpost =>
        have hlen := List.length_erase_of_mem hpost
        simp only [] at ih ⊢
        omega

/-- C9: with a positive `numberMediaDownloadsAtOnce`, at no reachable instant
of the bounded-concurrency sweep are more than that many executor tasks in
the started substate, and whenever a task reaches a terminal state and frees
its slot, the next queued post immediately becomes eligible to start. -/
theorem bounded_concurrency_limit (settings : AdminSettings) (posts : List Post)
    (s : PoolState) (_hN : 0 < settings.numberMediaDownloadsAtOnce)
    (hreach : PoolReachable settings.numberMediaDownloadsAtOnce posts s) :
    s.active.length ≤ settings.numberMediaDownloadsAtOnce
  ∧ ∀ (q : Post) (s' : PoolState), PoolFinish s q s' →
      ∀ (p : Post) (rest : List Post), s'.pending = p :: rest →
        PoolStart settings.numberMediaDownloadsAtOnce s'
          { pending := rest, active := p :: s'.active, done := s'.done } := by
  refine ⟨pool_active_le _ posts s hreach, ?_⟩
  intro q s' hfin p rest hpend
  cases hfin with
  | mk pending active done post hpost =>
    have hle : active.length ≤ settings.numberMediaDownloadsAtOnce := by
      have := pool_active_le _ posts _ hreach
      simpa using this
    have hlen := List.length_erase_of_mem hpost
    have hposlen := List.length_pos_of_mem hpost
    have hlt : (active.erase q).length < settings.numberMediaDownloadsAtOnce := by omega
    simp only [] at hpend
    subst hpend
    exact PoolStart.mk p rest (active.erase q) (q :: done) hlt

theorem bounded_concurrency_limit_witness :
    0 < settingsTwo.numberMediaDownloadsAtOnce
  ∧ (initPool demoPosts).active.length ≤ settingsTwo.numberMediaDownloadsAtOnce :=
  ⟨by decide,
   (bounded_concurrency_limit settingsTwo demoPosts (initPool demoPosts) (by decide)
      PoolReachable.init).1⟩
